import Mathlib

/-!
Shallow embedding of `src/app.py` (NBS Inventory Optimizer for Lagos SMEs,
a single-file Streamlit application): the feature deriver, the insight
generator, the derived display metrics and the predict-button control flow.

Machine reals (numpy float64 values) are modelled as exact rationals.
The one place where IEEE-754 semantics matters — the division
`((prediction - units_sold_lag1) / units_sold_lag1) * 100` at app.py
line 168, whose denominator may be 0 — is modelled by the type `NpFloat`,
which makes the numpy scalar semantics explicit: dividing a finite value
by zero yields `+inf`, `-inf` or `nan` (with a runtime warning), never a
raised exception.
-/

namespace NbsApp

open Real

/-- The raw, range-bounded user inputs of the sidebar form (app.py lines
37-97).  `month_num` is the 1-based index of the selected month name;
`is_festive` / `is_harvest` model the Yes/No selectboxes; `current_year`
is `datetime.now().year`, the reference year of the linear time index. -/
structure PredictionInput where
  month_num : ℕ
  current_price : ℕ
  last_month_price : ℕ
  units_sold_lag1 : ℕ
  is_festive : Bool
  is_harvest : Bool
  current_year : ℕ

/-- `price_change = current_price - last_month_price` (app.py line 69). -/
def price_change (i : PredictionInput) : ℤ :=
  (i.current_price : ℤ) - (i.last_month_price : ℤ)

/-- `months_since_start = (current_year - 2017) * 12 + month_num`
(app.py line 47). -/
def months_since_start (year month : ℤ) : ℤ :=
  (year - 2017) * 12 + month

/-- `month_sin = np.sin(2 * np.pi * month_num / 12)` (app.py line 100). -/
noncomputable def month_sin (m : ℕ) : ℝ :=
  Real.sin (2 * π * (m : ℝ) / 12)

/-- `month_cos = np.cos(2 * np.pi * month_num / 12)` (app.py line 101). -/
noncomputable def month_cos (m : ℕ) : ℝ :=
  Real.cos (2 * π * (m : ℝ) / 12)

/-- `is_festive_num = 1 if is_festive == "Yes" else 0` (app.py line 96). -/
def is_festive_num (i : PredictionInput) : ℕ :=
  if i.is_festive then 1 else 0

/-- `is_harvest_num = 1 if is_harvest == "Yes" else 0` (app.py line 97). -/
def is_harvest_num (i : PredictionInput) : ℕ :=
  if i.is_harvest then 1 else 0

/-- The ordered 7-element feature vector `input_features` passed to
`model.predict` (app.py lines 110-118), in the exact order of the source. -/
noncomputable def input_features (i : PredictionInput) : List ℝ :=
  [ (months_since_start i.current_year i.month_num : ℝ),
    (i.units_sold_lag1 : ℝ),
    (price_change i : ℝ),
    month_sin i.month_num,
    month_cos i.month_num,
    (is_festive_num i : ℝ),
    (is_harvest_num i : ℝ) ]

/-- A numpy float64 value as it matters to this program: either an exact
finite value (modelled as a rational), or one of the IEEE specials
`+inf`, `-inf`, `nan` that numpy produces instead of raising on a zero
divisor. -/
inductive NpFloat where
  | finite (q : ℚ)
  | pinf
  | ninf
  | nan
deriving DecidableEq

/-- numpy float64 division: a zero divisor yields `+inf`, `-inf` or `nan`
according to the sign of the dividend (a runtime warning, not an
exception); otherwise exact division. -/
def npdiv (a b : ℚ) : NpFloat :=
  if b = 0 then
    (if 0 < a then NpFloat.pinf else if a < 0 then NpFloat.ninf else NpFloat.nan)
  else NpFloat.finite (a / b)

/-- Multiplication of a numpy float by a finite constant. -/
def NpFloat.mulQ : NpFloat → ℚ → NpFloat
  | NpFloat.finite q, c => NpFloat.finite (q * c)
  | NpFloat.pinf, c => if 0 < c then NpFloat.pinf else if c < 0 then NpFloat.ninf else NpFloat.nan
  | NpFloat.ninf, c => if 0 < c then NpFloat.ninf else if c < 0 then NpFloat.pinf else NpFloat.nan
  | NpFloat.nan, _ => NpFloat.nan

/-- IEEE comparison `x > c` against a finite constant: `+inf > c` is true,
comparisons on `nan` are false. -/
def NpFloat.gtQ : NpFloat → ℚ → Bool
  | NpFloat.finite q, c => decide (c < q)
  | NpFloat.pinf, _ => true
  | NpFloat.ninf, _ => false
  | NpFloat.nan, _ => false

/-- IEEE comparison `x < c` against a finite constant: `-inf < c` is true,
comparisons on `nan` are false. -/
def NpFloat.ltQ : NpFloat → ℚ → Bool
  | NpFloat.finite q, c => decide (q < c)
  | NpFloat.pinf, _ => false
  | NpFloat.ninf, _ => true
  | NpFloat.nan, _ => false

/-- IEEE absolute value: `abs(±inf) = +inf`, `abs(nan) = nan`. -/
def NpFloat.fabs : NpFloat → NpFloat
  | NpFloat.finite q => NpFloat.finite |q|
  | NpFloat.pinf => NpFloat.pinf
  | NpFloat.ninf => NpFloat.pinf
  | NpFloat.nan => NpFloat.nan

/-- `change_pct = ((prediction - units_sold_lag1) / units_sold_lag1) * 100`
(app.py line 168), under numpy float64 semantics: `prediction` is a
numpy float64 scalar, so a zero `units_sold_lag1` produces an infinite or
nan value rather than a `ZeroDivisionError`. -/
def change_pct (prediction : ℚ) (units_sold_lag1 : ℕ) : NpFloat :=
  (npdiv (prediction - (units_sold_lag1 : ℚ)) (units_sold_lag1 : ℚ)).mulQ 100

/-- The advisory messages of the insights section (app.py lines 155-172),
one constructor per distinct template string, carrying the numeric value
interpolated into the message. -/
inductive Insight where
  | priceIncreased (amount : ℤ)
  | priceDecreased (amount : ℤ)
  | priceStable
  | festive
  | harvest
  | stockUp (pct : NpFloat)
  | reduceInventory (pct : NpFloat)
deriving DecidableEq

/-- The three-way price-direction branch (app.py lines 155-160): the first,
unconditional append into `insights`. -/
def price_insight (pc : ℤ) : List Insight :=
  if 0 < pc then [Insight.priceIncreased pc]
  else if pc < 0 then [Insight.priceDecreased |pc|]
  else [Insight.priceStable]

/-- The festive-season append (app.py lines 162-163). -/
def festive_insight (b : Bool) : List Insight :=
  if b then [Insight.festive] else []

/-- The harvest-season append (app.py lines 165-166). -/
def harvest_insight (b : Bool) : List Insight :=
  if b then [Insight.harvest] else []

/-- The magnitude branch (app.py lines 168-172): `change_pct > 10` appends
the stock-up advisory, else `change_pct < -10` appends the
reduce-inventory advisory; both interpolate `abs(change_pct)`. -/
def magnitude_insight (prediction : ℚ) (lag : ℕ) : List Insight :=
  if (change_pct prediction lag).gtQ 10 then
    [Insight.stockUp (change_pct prediction lag).fabs]
  else if (change_pct prediction lag).ltQ (-10) then
    [Insight.reduceInventory (change_pct prediction lag).fabs]
  else []

/-- The full ordered `insights` list built at app.py lines 153-172: the
price-direction message, then the optional festive, harvest and magnitude
advisories, appended in exactly that source order. -/
def insights (pc : ℤ) (fe ha : Bool) (prediction : ℚ) (lag : ℕ) : List Insight :=
  price_insight pc ++ festive_insight fe ++ harvest_insight ha ++
    magnitude_insight prediction lag

/-- The insight list as a function of the raw inputs and the model
prediction, wiring in the derived `price_change` and the two flag
selectboxes exactly as the handler does. -/
def insightsOf (i : PredictionInput) (prediction : ℚ) : List Insight :=
  insights (price_change i) i.is_festive i.is_harvest prediction i.units_sold_lag1

/-- Python `int()` applied to a real scalar: truncation toward zero. -/
def truncToInt (q : ℚ) : ℤ :=
  if 0 ≤ q then ⌊q⌋ else ⌈q⌉

/-- The values rendered after a successful prediction (app.py lines
125-175): `int(prediction)` in the units metric, `int(prediction -
units_sold_lag1)` as its delta caption, the price-change percentage of
line 138, `revenue_estimate = prediction * current_price` of line 142,
and the insight list. -/
structure PredictionDisplay where
  predicted_units : ℤ
  units_delta : ℤ
  price_change_pct : ℚ
  revenue_estimate : ℚ
  insight_list : List Insight
deriving DecidableEq

/-- Builds the rendered result values from the raw inputs and the model
prediction, exactly as the success path of the handler does. -/
def render_prediction (i : PredictionInput) (prediction : ℚ) : PredictionDisplay :=
  { predicted_units := truncToInt prediction
    units_delta := truncToInt (prediction - (i.units_sold_lag1 : ℚ))
    price_change_pct := (price_change i : ℚ) / (i.last_month_price : ℚ) * 100
    revenue_estimate := prediction * (i.current_price : ℚ)
    insight_list := insightsOf i prediction }

/-- What the main content area shows for one run of the script body:
either the default info view, or an error message, or the full rendered
prediction. -/
inductive HandlerResult where
  | defaultView
  | errorShown (msg : String)
  | results (r : PredictionDisplay)

/-- The predict-button control flow (app.py lines 108-208): the body runs
only when the button was pressed and the model loaded (`model` is not
`None`); inside it, `model.predict` is called first under `try`, any
exception it raises reaches the `except` at line 203 and is reported,
and only a successful scalar leads to the rendered results.  The model
is an opaque function from the feature vector to either a scalar or a
raised error. -/
noncomputable def predict_flow (model : Option (List ℝ → Except String ℚ))
    (pressed : Bool) (i : PredictionInput) : HandlerResult :=
  match model, pressed with
  | some f, true =>
    match f (input_features i) with
    | Except.ok pred => HandlerResult.results (render_prediction i pred)
    | Except.error e => HandlerResult.errorShown ("Error making prediction: " ++ e)
  | _, _ => HandlerResult.defaultView

/-! ## Theorems -/

/-! ### Helper lemmas about the insight generator -/

theorem price_insight_shape (pc : ℤ) :
    ∃ d, price_insight pc = [d] ∧
      (d = Insight.priceStable ∨ (∃ a, d = Insight.priceIncreased a) ∨
        (∃ a, d = Insight.priceDecreased a)) := by
  unfold price_insight
  split_ifs <;> exact ⟨_, rfl, by simp⟩

theorem festive_insight_shape (b : Bool) :
    festive_insight b = [] ∨ festive_insight b = [Insight.festive] := by
  cases b <;> simp [festive_insight]

theorem harvest_insight_shape (b : Bool) :
    harvest_insight b = [] ∨ harvest_insight b = [Insight.harvest] := by
  cases b <;> simp [harvest_insight]

theorem magnitude_insight_shape (p : ℚ) (lag : ℕ) :
    magnitude_insight p lag = [] ∨
      (∃ a, magnitude_insight p lag = [Insight.stockUp a]) ∨
      (∃ a, magnitude_insight p lag = [Insight.reduceInventory a]) := by
  unfold magnitude_insight
  split_ifs <;> simp

theorem price_insight_length (pc : ℤ) : (price_insight pc).length = 1 := by
  unfold price_insight
  split_ifs <;> rfl

theorem one_le_insights_length (pc : ℤ) (fe ha : Bool) (p : ℚ) (lag : ℕ) :
    1 ≤ (insights pc fe ha p lag).length := by
  simp [insights, price_insight_length]

theorem change_pct_of_ne_zero (p : ℚ) (lag : ℕ) (h : lag ≠ 0) :
    change_pct p lag = NpFloat.finite ((p - (lag : ℚ)) / (lag : ℚ) * 100) := by
  have hq : (lag : ℚ) ≠ 0 := Nat.cast_ne_zero.mpr h
  simp [change_pct, npdiv, NpFloat.mulQ, hq]

theorem stockUp_mem_insights_iff (pc : ℤ) (fe ha : Bool) (p : ℚ) (lag : ℕ) :
    (∃ a, Insight.stockUp a ∈ insights pc fe ha p lag) ↔
      (change_pct p lag).gtQ 10 = true := by
  unfold insights price_insight festive_insight harvest_insight magnitude_insight
  split_ifs <;> simp_all

theorem reduceInventory_mem_insights_iff (pc : ℤ) (fe ha : Bool) (p : ℚ) (lag : ℕ) :
    (∃ a, Insight.reduceInventory a ∈ insights pc fe ha p lag) ↔
      ((change_pct p lag).gtQ 10 = false ∧ (change_pct p lag).ltQ (-10) = true) := by
  unfold insights price_insight festive_insight harvest_insight magnitude_insight
  split_ifs <;> simp_all

/-- Claim C1: for every PredictionInput, the feature deriver produces
exactly the 7-element vector [monthsSinceStart, unitsSoldLag1,
priceChange, monthSin, monthCos, isFestiveFlag, isHarvestFlag] in that
order, with monthsSinceStart = (referenceYear - 2017) * 12 + month,
priceChange = currentPrice - lastMonthPrice, monthSin =
sin(2*pi*month/12), monthCos = cos(2*pi*month/12), and each flag equal
to 0 or 1. -/
theorem feature_vector_contract (i : PredictionInput) :
    input_features i =
      [ ((i.current_year : ℝ) - 2017) * 12 + (i.month_num : ℝ),
        (i.units_sold_lag1 : ℝ),
        (i.current_price : ℝ) - (i.last_month_price : ℝ),
        Real.sin (2 * π * (i.month_num : ℝ) / 12),
        Real.cos (2 * π * (i.month_num : ℝ) / 12),
        (if i.is_festive then (1 : ℝ) else 0),
        (if i.is_harvest then (1 : ℝ) else 0) ] ∧
    ((if i.is_festive then (1 : ℝ) else 0) = 0 ∨ (if i.is_festive then (1 : ℝ) else 0) = 1) ∧
    ((if i.is_harvest then (1 : ℝ) else 0) = 0 ∨ (if i.is_harvest then (1 : ℝ) else 0) = 1) := by
  refine ⟨?_, ?_, ?_⟩
  · simp only [input_features, months_since_start, price_change, month_sin, month_cos,
      is_festive_num, is_harvest_num, List.cons.injEq, and_true]
    refine ⟨by push_cast; ring, trivial, by push_cast; ring, trivial, trivial, ?_, ?_⟩
    · cases i.is_festive <;> simp
    · cases i.is_harvest <;> simp
  · cases i.is_festive <;> simp
  · cases i.is_harvest <;> simp

/-- Claim C7: monthsSinceStart = (year - 2017) * 12 + month is strictly
increasing in the month for a fixed year, increases by exactly 12 when
the year increases by 1, and is unbounded above: any bound B is exceeded
at the year 2018 + |B| for every month at least 1 (out-of-range years
simply extrapolate; no upper check exists in the code). -/
theorem months_since_start_monotone :
    (∀ y m₁ m₂ : ℤ, m₁ < m₂ → months_since_start y m₁ < months_since_start y m₂) ∧
    (∀ y m : ℤ, months_since_start (y + 1) m = months_since_start y m + 12) ∧
    (∀ B m : ℤ, 1 ≤ m → B < months_since_start (2018 + |B|) m) := by
  refine ⟨?_, ?_, ?_⟩
  · intro y m₁ m₂ h
    simp only [months_since_start]
    omega
  · intro y m
    simp only [months_since_start]
    ring
  · intro B m hm
    simp only [months_since_start]
    have h1 : B ≤ |B| := le_abs_self B
    have h2 : 0 ≤ |B| := abs_nonneg B
    nlinarith

/-- Witness for C7 at concrete inputs: month 3 versus 4 of 2025, the year
step 2025 to 2026, and the bound 100 exceeded at year 2018 + |100| = 2118
in month 5. -/
theorem months_since_start_monotone_witness :
    months_since_start 2025 3 < months_since_start 2025 4 ∧
    months_since_start 2026 3 = months_since_start 2025 3 + 12 ∧
    (1 ≤ (5 : ℤ) ∧ (100 : ℤ) < months_since_start (2018 + |(100 : ℤ)|) 5) :=
  ⟨months_since_start_monotone.1 2025 3 4 (by decide),
   months_since_start_monotone.2.1 2025 3,
   by decide,
   months_since_start_monotone.2.2 100 5 (by decide)⟩

/-- Claim C8: for every month, monthSin(month)^2 + monthCos(month)^2 = 1
(exactly, in the real-number model of float sin/cos), and the cyclical
encoding wraps across the December-to-January boundary: |monthSin 12 -
monthSin 1| = 1/2, which is far below the raw integer distance
|12 - 1| = 11. -/
theorem month_encoding_cyclical :
    (∀ m : ℕ, month_sin m ^ 2 + month_cos m ^ 2 = 1) ∧
    |month_sin 12 - month_sin 1| = 1 / 2 ∧
    |month_sin 12 - month_sin 1| < |(12 : ℝ) - 1| := by
  have h12 : month_sin 12 = 0 := by
    have harg : 2 * π * ((12 : ℕ) : ℝ) / 12 = 2 * π := by push_cast; ring
    rw [month_sin, harg, Real.sin_two_pi]
  have h1 : month_sin 1 = 1 / 2 := by
    have harg : 2 * π * ((1 : ℕ) : ℝ) / 12 = π / 6 := by push_cast; ring
    rw [month_sin, harg, Real.sin_pi_div_six]
  have hd : |month_sin 12 - month_sin 1| = 1 / 2 := by
    rw [h12, h1, show (0 : ℝ) - 1 / 2 = -(1 / 2) by ring, abs_neg,
      abs_of_nonneg (by norm_num : (0 : ℝ) ≤ 1 / 2)]
  refine ⟨fun m => Real.sin_sq_add_cos_sq _, hd, ?_⟩
  rw [hd]
  norm_num

/-- Claim C3: the price-direction insight is a mutually exclusive
three-way rule: a price-increased message appears iff priceChange > 0, a
price-decreased message appears iff priceChange < 0, the stable message
appears iff priceChange = 0, and priceChange = 0 holds exactly when
currentPrice equals lastMonthPrice; by integer trichotomy, exactly one
of the three messages is produced. -/
theorem price_direction_three_way (i : PredictionInput) (p : ℚ) :
    ((∃ a, Insight.priceIncreased a ∈ insightsOf i p) ↔ 0 < price_change i) ∧
    ((∃ a, Insight.priceDecreased a ∈ insightsOf i p) ↔ price_change i < 0) ∧
    (Insight.priceStable ∈ insightsOf i p ↔ price_change i = 0) ∧
    ((i.current_price : ℤ) = (i.last_month_price : ℤ) ↔ price_change i = 0) := by
  unfold insightsOf insights price_insight festive_insight harvest_insight magnitude_insight
  refine ⟨?_, ?_, ?_, ?_⟩ <;>
    first
      | (unfold price_change; omega)
      | (split_ifs <;> simp_all <;> omega)

/-- Claim C10: for every input and prediction, the insight list has
between 1 and 4 entries, its first element is one of the three
price-direction messages, and the optional festive, harvest and
magnitude advisories follow it in that fixed relative order. -/
theorem insights_structure (i : PredictionInput) (p : ℚ) :
    (∃ d l₂ l₃ l₄, insightsOf i p = d :: (l₂ ++ l₃ ++ l₄) ∧
      (d = Insight.priceStable ∨ (∃ a, d = Insight.priceIncreased a) ∨
        (∃ a, d = Insight.priceDecreased a)) ∧
      (l₂ = [] ∨ l₂ = [Insight.festive]) ∧
      (l₃ = [] ∨ l₃ = [Insight.harvest]) ∧
      (l₄ = [] ∨ (∃ a, l₄ = [Insight.stockUp a]) ∨
        (∃ a, l₄ = [Insight.reduceInventory a]))) ∧
    1 ≤ (insightsOf i p).length ∧ (insightsOf i p).length ≤ 4 := by
  obtain ⟨d, hd, hdshape⟩ := price_insight_shape (price_change i)
  refine ⟨⟨d, festive_insight i.is_festive, harvest_insight i.is_harvest,
      magnitude_insight p i.units_sold_lag1, ?_, hdshape,
      festive_insight_shape _, harvest_insight_shape _, magnitude_insight_shape _ _⟩,
    one_le_insights_length _ _ _ _ _, ?_⟩
  · simp [insightsOf, insights, hd]
  · rcases festive_insight_shape i.is_festive with h₂ | h₂ <;>
      rcases harvest_insight_shape i.is_harvest with h₃ | h₃ <;>
      rcases magnitude_insight_shape p i.units_sold_lag1 with h₄ | ⟨a, h₄⟩ | ⟨a, h₄⟩ <;>
      simp [insightsOf, insights, hd, h₂, h₃, h₄]

/-- Claim C4: for every input with a nonzero unitsSoldLag1, the stock-up
advisory is included iff changePercent > 10 and the reduce-inventory
advisory is included iff changePercent < -10; the two are never both
present, and at changePercent exactly 10 or -10 neither appears.  The
statement quantifies the price change and the festive/harvest flags
separately, so the two thresholds are independent of the other rules. -/
theorem magnitude_thresholds (pc : ℤ) (fe ha : Bool) (p : ℚ) (lag : ℕ) (h : lag ≠ 0) :
    ((∃ a, Insight.stockUp a ∈ insights pc fe ha p lag) ↔
        10 < (p - (lag : ℚ)) / (lag : ℚ) * 100) ∧
    ((∃ a, Insight.reduceInventory a ∈ insights pc fe ha p lag) ↔
        (p - (lag : ℚ)) / (lag : ℚ) * 100 < -10) ∧
    ¬((∃ a, Insight.stockUp a ∈ insights pc fe ha p lag) ∧
      (∃ a, Insight.reduceInventory a ∈ insights pc fe ha p lag)) ∧
    ((p - (lag : ℚ)) / (lag : ℚ) * 100 = 10 ∨ (p - (lag : ℚ)) / (lag : ℚ) * 100 = -10 →
      ¬(∃ a, Insight.stockUp a ∈ insights pc fe ha p lag) ∧
      ¬(∃ a, Insight.reduceInventory a ∈ insights pc fe ha p lag)) := by
  have hcp := change_pct_of_ne_zero p lag h
  have h1 : (∃ a, Insight.stockUp a ∈ insights pc fe ha p lag) ↔
      10 < (p - (lag : ℚ)) / (lag : ℚ) * 100 := by
    rw [stockUp_mem_insights_iff, hcp]
    simp [NpFloat.gtQ]
  have h2 : (∃ a, Insight.reduceInventory a ∈ insights pc fe ha p lag) ↔
      (p - (lag : ℚ)) / (lag : ℚ) * 100 < -10 := by
    rw [reduceInventory_mem_insights_iff, hcp]
    simp only [NpFloat.gtQ, NpFloat.ltQ, decide_eq_true_eq, decide_eq_false_iff_not]
    constructor
    · rintro ⟨-, hlt⟩
      exact hlt
    · intro hlt
      exact ⟨by linarith, hlt⟩
  refine ⟨h1, h2, ?_, ?_⟩
  · rintro ⟨hs, hr⟩
    rw [h1] at hs
    rw [h2] at hr
    linarith
  · intro hcase
    constructor
    · rw [h1]
      rcases hcase with he | he <;> rw [he] <;> norm_num
    · rw [h2]
      rcases hcase with he | he <;> rw [he] <;> norm_num

/-- Witness for C4 at the scenario-3 numbers: lag 1008, prediction 1200,
festive flag set; changePercent is about 19.05 > 10, so a stock-up
advisory is in the list. -/
theorem magnitude_thresholds_witness :
    (1008 : ℕ) ≠ 0 ∧ (∃ a, Insight.stockUp a ∈ insights 50 true false 1200 1008) :=
  ⟨by decide, (magnitude_thresholds 50 true false 1200 1008 (by decide)).1.mpr (by norm_num)⟩

/-- Claim C9: the insight generator is pure and deterministic; it is a
function of the price change, the two seasonal flags, the previous-month
units and the model prediction alone, so two inputs agreeing on those
fields (whatever their month, prices or year) yield the identical
ordered advisory list. -/
theorem insight_generator_deterministic (i₁ i₂ : PredictionInput) (p : ℚ)
    (hpc : price_change i₁ = price_change i₂) (hfe : i₁.is_festive = i₂.is_festive)
    (hha : i₁.is_harvest = i₂.is_harvest)
    (hlag : i₁.units_sold_lag1 = i₂.units_sold_lag1) :
    insightsOf i₁ p = insightsOf i₂ p := by
  unfold insightsOf
  rw [hpc, hfe, hha, hlag]

/-- Witness for C9: two inputs in different months and years but with the
same price change, flags and lag produce the same insight list. -/
theorem insight_generator_deterministic_witness :
    price_change ⟨2, 1500, 1450, 1008, false, false, 2025⟩ =
      price_change ⟨7, 1600, 1550, 1008, false, false, 2030⟩ ∧
    insightsOf ⟨2, 1500, 1450, 1008, false, false, 2025⟩ 1200 =
      insightsOf ⟨7, 1600, 1550, 1008, false, false, 2030⟩ 1200 :=
  ⟨by decide, insight_generator_deterministic _ _ 1200 (by decide) rfl rfl rfl⟩

/-- Counterexample to claim C5 as stated: at the prediction scalar 2001/2
(= 1000.5) with unitsSoldLag1 = 1008 and currentPrice = 1500, the code
displays int(prediction - lag) = int(-7.5) = -7 as the units delta,
while predictedUnits - unitsSoldLag1 = int(1000.5) - 1008 = -8, and the
code computes revenue_estimate = 1000.5 * 1500 = 1500750, not
predictedUnits * currentPrice = 1000 * 1500. -/
theorem derived_metrics_claim_false :
    ¬ ((render_prediction ⟨2, 1500, 1450, 1008, false, false, 2025⟩ (2001 / 2)).units_delta =
         (render_prediction ⟨2, 1500, 1450, 1008, false, false, 2025⟩ (2001 / 2)).predicted_units -
           ((⟨2, 1500, 1450, 1008, false, false, 2025⟩ : PredictionInput).units_sold_lag1 : ℤ) ∧
       (render_prediction ⟨2, 1500, 1450, 1008, false, false, 2025⟩ (2001 / 2)).revenue_estimate =
         ((render_prediction ⟨2, 1500, 1450, 1008, false, false, 2025⟩
             (2001 / 2)).predicted_units : ℚ) *
           ((⟨2, 1500, 1450, 1008, false, false, 2025⟩ : PredictionInput).current_price : ℚ)) := by
  rintro ⟨h1, -⟩
  have e1 : (render_prediction ⟨2, 1500, 1450, 1008, false, false, 2025⟩
      (2001 / 2)).units_delta = -7 := by
    show truncToInt ((2001 / 2 : ℚ) - ((1008 : ℕ) : ℚ)) = -7
    rw [truncToInt, if_neg (by norm_num),
      show ((2001 / 2 : ℚ) - ((1008 : ℕ) : ℚ)) = -(15 / 2) by norm_num, Int.ceil_neg]
    norm_num
  have e2 : (render_prediction ⟨2, 1500, 1450, 1008, false, false, 2025⟩
      (2001 / 2)).predicted_units = 1000 := by
    show truncToInt (2001 / 2 : ℚ) = 1000
    rw [truncToInt, if_pos (by norm_num)]
    norm_num
  have e3 : ((⟨2, 1500, 1450, 1008, false, false, 2025⟩ :
      PredictionInput).units_sold_lag1 : ℤ) = 1008 := rfl
  rw [e1, e2, e3] at h1
  norm_num at h1

/-- Claim C5 amended: predictedUnits shown is the scalar truncated toward
zero; the displayed unitsDelta is the truncation of (scalar -
unitsSoldLag1), and revenueEstimate is the untruncated scalar times
currentPrice.  Whenever the scalar is an integer (as in the example
1200), the displayed delta equals predictedUnits - unitsSoldLag1 and the
revenue equals predictedUnits * currentPrice. -/
theorem derived_metrics (i : PredictionInput) (p : ℚ) :
    (render_prediction i p).predicted_units = truncToInt p ∧
    (render_prediction i p).units_delta = truncToInt (p - (i.units_sold_lag1 : ℚ)) ∧
    (render_prediction i p).revenue_estimate = p * (i.current_price : ℚ) ∧
    (∀ n : ℤ, p = (n : ℚ) →
      (render_prediction i p).units_delta =
        (render_prediction i p).predicted_units - (i.units_sold_lag1 : ℤ) ∧
      (render_prediction i p).revenue_estimate =
        ((render_prediction i p).predicted_units : ℚ) * (i.current_price : ℚ)) := by
  have htr : ∀ n : ℤ, truncToInt (n : ℚ) = n := by
    intro n
    unfold truncToInt
    split_ifs <;> simp
  refine ⟨rfl, rfl, rfl, ?_⟩
  rintro n rfl
  simp only [render_prediction]
  constructor
  · have hcast : ((n : ℚ) - (i.units_sold_lag1 : ℚ)) = ((n - (i.units_sold_lag1 : ℤ) : ℤ) : ℚ) := by
      push_cast
      ring
    rw [hcast, htr, htr]
  · rw [htr]

/-- Witness for the amended C5 at the scenario-3 numbers: prediction 1200
(an integer scalar), lag 1008, price 1500; here the displayed delta
equals predictedUnits - lag and the revenue equals predictedUnits *
currentPrice. -/
theorem derived_metrics_witness :
    (render_prediction ⟨2, 1500, 1450, 1008, false, false, 2025⟩ 1200).units_delta =
      (render_prediction ⟨2, 1500, 1450, 1008, false, false, 2025⟩ 1200).predicted_units -
        ((⟨2, 1500, 1450, 1008, false, false, 2025⟩ : PredictionInput).units_sold_lag1 : ℤ) ∧
    (render_prediction ⟨2, 1500, 1450, 1008, false, false, 2025⟩ 1200).revenue_estimate =
      ((render_prediction ⟨2, 1500, 1450, 1008, false, false, 2025⟩ 1200).predicted_units : ℚ) *
        ((⟨2, 1500, 1450, 1008, false, false, 2025⟩ : PredictionInput).current_price : ℚ) :=
  (derived_metrics ⟨2, 1500, 1450, 1008, false, false, 2025⟩ 1200).2.2.2 1200 (by norm_num)

/-- Claim C2: when unitsSoldLag1 = 0 the change-percent computation does
not crash the run: the prediction scalar is a numpy float64, so the
division by the zero lag yields an IEEE infinity or nan (a warning, not
an exception), the insight step runs to completion, and the handler
returns the full rendered result with a nonempty insight list — never an
error view.  (Any exception would in addition be caught by the except
clause at app.py line 203.) -/
theorem zero_lag_insights_no_crash (f : List ℝ → Except String ℚ) (i : PredictionInput)
    (p : ℚ) (h0 : i.units_sold_lag1 = 0) (hf : f (input_features i) = Except.ok p) :
    predict_flow (some f) true i = HandlerResult.results (render_prediction i p) ∧
    1 ≤ (render_prediction i p).insight_list.length := by
  constructor
  · simp [predict_flow, hf]
  · exact one_le_insights_length _ _ _ _ _

/-- Witness for C2: a concrete input with zero previous-month sales and a
model returning 1200 completes with rendered results. -/
theorem zero_lag_insights_no_crash_witness :
    (⟨2, 1500, 1450, 0, false, false, 2025⟩ : PredictionInput).units_sold_lag1 = 0 ∧
    (predict_flow (some fun _ => Except.ok (1200 : ℚ)) true
          ⟨2, 1500, 1450, 0, false, false, 2025⟩ =
        HandlerResult.results (render_prediction ⟨2, 1500, 1450, 0, false, false, 2025⟩ 1200) ∧
      1 ≤ (render_prediction ⟨2, 1500, 1450, 0, false, false, 2025⟩ 1200).insight_list.length) :=
  ⟨rfl, zero_lag_insights_no_crash (fun _ => Except.ok (1200 : ℚ))
    ⟨2, 1500, 1450, 0, false, false, 2025⟩ 1200 rfl rfl⟩

/-- Claim C6: the two failure paths.  With no loaded model (load failure
yielded None) the handler shows only the default view — no prediction
and no partial result — whatever the button state; and when the model
call raises, the error is caught and reported as a message, with no
partial result and no retry. -/
theorem failure_paths :
    (∀ (i : PredictionInput) (pressed : Bool),
        predict_flow none pressed i = HandlerResult.defaultView) ∧
    (∀ (f : List ℝ → Except String ℚ) (i : PredictionInput) (e : String),
        f (input_features i) = Except.error e →
          predict_flow (some f) true i =
            HandlerResult.errorShown ("Error making prediction: " ++ e)) := by
  constructor
  · intro i pressed
    cases pressed <;> rfl
  · intro f i e hf
    simp [predict_flow, hf]

/-- Witness for C6: pressing predict with no model shows the default
view, and a model raising reports the error message. -/
theorem failure_paths_witness :
    predict_flow none true ⟨2, 1500, 1450, 1008, false, false, 2025⟩ =
      HandlerResult.defaultView ∧
    ((fun _ => Except.error "model failure" : List ℝ → Except String ℚ)
        (input_features ⟨2, 1500, 1450, 1008, false, false, 2025⟩) =
          Except.error "model failure" ∧
      predict_flow (some fun _ => Except.error "model failure") true
          ⟨2, 1500, 1450, 1008, false, false, 2025⟩ =
        HandlerResult.errorShown ("Error making prediction: " ++ "model failure")) :=
  ⟨failure_paths.1 ⟨2, 1500, 1450, 1008, false, false, 2025⟩ true, rfl,
    failure_paths.2 (fun _ => Except.error "model failure")
      ⟨2, 1500, 1450, 1008, false, false, 2025⟩ "model failure" rfl⟩

end NbsApp
